import Mathlib

/-!
Verification of the token-based authentication/authorization subsystem of the
go-web-course repository: JWT issue/verify (`generateToken`/`parseToken` in the
gin-auth example and `ParseToken` in the jwt-basics example), the Gin
middleware chain with abort semantics, the bearer-header authentication
middleware, the role gate, the bcrypt wrappers, and the register/login
handler with its failed-login lockout counter.

Go string/int values are modelled as `String`/`Nat`/`Int`; Go maps with
zero-value reads are modelled as total functions; fallible operations return
`Except`.  The external jwt, gin and bcrypt libraries are modelled only in the
exact shape the repository code exercises them (symbolic MAC, index-based
handler chain, cost-checked hash constructor), each documented at its
definition.
-/

set_option autoImplicit false

namespace GoWeb

/-! ## TokenCodec: model of the jwt/v5 usage in the gin-auth and jwt-basics examples -/

/-- Signing algorithms the model distinguishes.  `noneAlg` is the JWT "none"
algorithm; `RS256` stands for the non-HMAC asymmetric family. -/
inductive Alg
  | HS256
  | HS384
  | HS512
  | RS256
  | noneAlg
deriving DecidableEq, Repr

/-- Whether a method is in the HMAC family (`*jwt.SigningMethodHMAC`). -/
def Alg.isHMAC : Alg → Bool
  | .HS256 => true
  | .HS384 => true
  | .HS512 => true
  | _ => false

/-- Verification keys as Go `interface{}` values: a byte-slice secret, an RSA
public key, or the sentinel `jwt.UnsafeAllowNoneSignatureType`. -/
inductive JwtKey
  | bytes (secret : String)
  | rsaPublic (keyId : String)
  | noneSentinelKey
deriving DecidableEq, Repr

/-- The custom `Claims` struct of the examples: `UserID`, `Username`, `Role`
plus the embedded `jwt.RegisteredClaims` fields the code sets (`ExpiresAt`,
`IssuedAt`, `NotBefore`, `Issuer`, `Subject`).  Timestamps are Unix seconds;
absent optional timestamps are `none`. -/
structure JwtClaims where
  userID : Nat
  username : String
  role : String
  issuer : String
  subject : String
  expiresAt : Option Int
  issuedAt : Option Int
  notBefore : Option Int
deriving DecidableEq, Repr

/-- Symbolic signature value: an ideal MAC/signature over the signing input
(header algorithm + claims payload) computed by `signAlg` with `key`, or the
empty signature used by the "none" algorithm.  Two signatures are equal
exactly when algorithm, signing input and key coincide (ideal-MAC model of
the external crypto). -/
inductive JwtSig
  | mac (signAlg : Alg) (headerAlg : Alg) (payload : JwtClaims) (key : JwtKey)
  | emptySig
deriving DecidableEq, Repr

/-- A structurally well-formed compact token after decoding: the header's
declared algorithm, the claims payload, and the signature segment. -/
structure JwtToken where
  headerAlg : Alg
  claims : JwtClaims
  sig : JwtSig
deriving DecidableEq, Repr

/-- Model of `method.Verify(signingInput, sig, key)` in jwt/v5: each HMAC
method requires a byte-slice key and recomputes the MAC with itself over the
received header+payload; `RS256` requires an RSA public key; `none` requires
the explicit unsafe sentinel and an empty signature.  A key of the wrong
type is an error (verification fails). -/
def algVerify (method : Alg) (headerAlg : Alg) (payload : JwtClaims)
    (sig : JwtSig) (key : JwtKey) : Bool :=
  match method, key with
  | .HS256, .bytes s => sig = .mac .HS256 headerAlg payload (.bytes s)
  | .HS384, .bytes s => sig = .mac .HS384 headerAlg payload (.bytes s)
  | .HS512, .bytes s => sig = .mac .HS512 headerAlg payload (.bytes s)
  | .RS256, .rsaPublic k => sig = .mac .RS256 headerAlg payload (.rsaPublic k)
  | .noneAlg, .noneSentinelKey => sig = .emptySig
  | _, _ => false

/-- Model of the jwt/v5 default claims validator at time `now`: `exp`, when
present, must satisfy `now < exp`; `nbf`, when present, must satisfy
`nbf ≤ now`; `iat` is not validated by default. -/
def validateClaims (c : JwtClaims) (now : Int) : Bool :=
  (match c.expiresAt with
   | some e => decide (now < e)
   | none => true)
  && (match c.notBefore with
      | some n => decide (n ≤ now)
      | none => true)

/-- Model of `jwt.ParseWithClaims` on an already-decoded token, with no
`WithValidMethods` option (as in both repository call sites): the keyfunc is
consulted, the signature is verified with the method named by the token's own
header, then the registered claims are validated at `now`. -/
def parseWithClaims (keyfunc : JwtToken → Except String JwtKey)
    (tok : JwtToken) (now : Int) : Except String JwtClaims :=
  match keyfunc tok with
  | .error e => .error e
  | .ok key =>
    if algVerify tok.headerAlg tok.headerAlg tok.claims tok.sig key then
      if validateClaims tok.claims now then
        .ok tok.claims
      else
        .error "token has invalid claims"
    else
      .error "token signature is invalid"

/-- The package-level `jwtSecret` of both JWT examples. -/
def jwtSecretStr : String := "your-256-bit-secret-key-here!!!"

/-- `parseToken` of the gin-auth example (src/unnamed/part_000): the keyfunc
returns the byte secret unconditionally, with no check of the signing
method.  The secret is passed explicitly, standing for the package variable
`jwtSecret`. -/
def parseToken (secret : String) (tok : JwtToken) (now : Int) :
    Except String JwtClaims :=
  parseWithClaims (fun _ => .ok (.bytes secret)) tok now

/-- `ParseToken` of the jwt-basics example
(src/15-认证-jwt/examples/01-jwt-basics/main.go): the keyfunc rejects any
method that is not `*jwt.SigningMethodHMAC` before returning the secret. -/
def ParseToken (secret : String) (tok : JwtToken) (now : Int) :
    Except String JwtClaims :=
  parseWithClaims
    (fun t =>
      if t.headerAlg.isHMAC then .ok (.bytes secret)
      else .error "unexpected signing method")
    tok now

/-- `generateToken` of the gin-auth example: builds the claims with
`ExpiresAt = now + duration`, `IssuedAt = now`, `Issuer = "go-web-tutorial"`
and signs them with `jwt.SigningMethodHS256` and the byte secret.  The fixed
clock `now` stands for `time.Now()` in Unix seconds. -/
def generateToken (secret : String) (userID : Nat) (username role : String)
    (durationSecs : Int) (now : Int) : JwtToken :=
  let c : JwtClaims :=
    { userID := userID
      username := username
      role := role
      issuer := "go-web-tutorial"
      subject := ""
      expiresAt := some (now + durationSecs)
      issuedAt := some now
      notBefore := none }
  { headerAlg := .HS256
    claims := c
    sig := .mac .HS256 .HS256 c (.bytes secret) }

end GoWeb

namespace GoWeb

/-- Claims payload used in the algorithm-substitution counterexample. -/
def cexClaims : JwtClaims :=
  { userID := 1
    username := "admin"
    role := "admin"
    issuer := "go-web-tutorial"
    subject := ""
    expiresAt := some 100
    issuedAt := some 0
    notBefore := none }

/-- A token whose header declares HS384 and whose signature is a valid HS384
MAC over its header+payload under the configured secret. -/
def cexTokenHS384 : JwtToken :=
  { headerAlg := .HS384
    claims := cexClaims
    sig := .mac .HS384 .HS384 cexClaims (.bytes jwtSecretStr) }

/-- An RS256-headed token used to witness rejection of non-HMAC algorithms. -/
def rs256Token : JwtToken :=
  { headerAlg := .RS256
    claims := cexClaims
    sig := .mac .RS256 .RS256 cexClaims (.rsaPublic "attacker") }

/-- C1 counterexample: a token whose header declares HS384 — an algorithm
different from the verifier's configured HS256 — carrying a signature valid
under HS384 with the configured secret is accepted, with claims returned, by
both `parseToken` (gin-auth) and `ParseToken` (jwt-basics).  So verification
does not fail for every token declaring a different algorithm. -/
theorem parse_accepts_hs384_token :
    cexTokenHS384.headerAlg ≠ Alg.HS256
    ∧ parseToken jwtSecretStr cexTokenHS384 0 = .ok cexClaims
    ∧ ParseToken jwtSecretStr cexTokenHS384 0 = .ok cexClaims := by
  refine ⟨by decide, ?_, ?_⟩ <;> rfl

/-- C1 amended: for every secret, token and clock, a token whose header
declares an algorithm outside the HMAC family is rejected with an error by
both `parseToken` and `ParseToken`; only HMAC-family substitutions
(HS384/HS512 under the configured secret) are accepted. -/
theorem parse_rejects_non_hmac (secret : String) (tok : JwtToken) (now : Int)
    (h : tok.headerAlg.isHMAC = false) :
    (∃ e, parseToken secret tok now = .error e)
    ∧ (∃ e, ParseToken secret tok now = .error e) := by
  constructor
  · cases halg : tok.headerAlg <;>
      simp [halg, Alg.isHMAC] at h ⊢ <;>
      simp [parseToken, parseWithClaims, algVerify, halg]
  · exact ⟨"unexpected signing method", by
      simp [ParseToken, parseWithClaims, h]⟩

/-- Witness for the C1 amended theorem at a concrete RS256 token. -/
theorem parse_rejects_non_hmac_witness :
    rs256Token.headerAlg.isHMAC = false
    ∧ ((∃ e, parseToken jwtSecretStr rs256Token 0 = .error e)
        ∧ (∃ e, ParseToken jwtSecretStr rs256Token 0 = .error e)) :=
  ⟨by decide, parse_rejects_non_hmac jwtSecretStr rs256Token 0 (by decide)⟩

/-- C4: round-trip — for every signing secret and every claims content with
`issuedAt < expiresAt` (positive duration), verifying a freshly issued token
under the same fixed clock succeeds and returns the claims field-for-field:
username, role, issuedAt `now`, expiresAt `now + d`, issuer
"go-web-tutorial". -/
theorem parse_generate_roundtrip (secret : String) (uid : Nat)
    (un role : String) (d now : Int) (hd : 0 < d) :
    parseToken secret (generateToken secret uid un role d now) now =
      .ok { userID := uid
            username := un
            role := role
            issuer := "go-web-tutorial"
            subject := ""
            expiresAt := some (now + d)
            issuedAt := some now
            notBefore := none } := by
  have hlt : now < now + d := by omega
  simp [parseToken, parseWithClaims, generateToken, algVerify, validateClaims, hlt]

/-- Witness for the C4 round-trip theorem at a concrete issuance. -/
theorem parse_generate_roundtrip_witness :
    (0 : Int) < 7200
    ∧ parseToken "s3cret" (generateToken "s3cret" 1 "tom" "admin" 7200 1000) 1000 =
        .ok { userID := 1
              username := "tom"
              role := "admin"
              issuer := "go-web-tutorial"
              subject := ""
              expiresAt := some 8200
              issuedAt := some 1000
              notBefore := none } :=
  ⟨by decide, parse_generate_roundtrip "s3cret" 1 "tom" "admin" 7200 1000 (by decide)⟩

end GoWeb

namespace GoWeb

/-! ## MiddlewareChain: model of Gin handler-chain execution with abort

Gin runs a per-request handler slice through an index cursor: `c.Next()`
advances and runs the remaining handlers; `c.Abort()` sets the cursor past
the end so that, once the current handler returns, no further handler runs —
but the code after `c.Next()`/`c.Abort()` in handlers already on the stack
still executes.  The middlewares of the middleware-chain example
(src/08-gin-中间件, Middleware1/2/3) all have the onion shape
"entry code; abort-and-return or `c.Next()`; exit code", so an interceptor is
modelled by its abort predicate on the request, and execution by the
recursive runner below, which emits the event trace the example prints. -/

/-- Observable events of one request's trip through the chain: interceptor
`i` runs its entry code, its post-`Next` exit code, or its post-`Abort` code;
or the terminal handler runs. -/
inductive Event
  | enter (i : Nat)
  | exitEv (i : Nat)
  | abortExit (i : Nat)
  | handlerRun
deriving DecidableEq, Repr

/-- Run the interceptors `aborts` (each given by its abort predicate) against
request `req`, numbering them from `base`; returns the emitted event trace
and whether the chain completed (terminal handler ran).  An interceptor that
aborts emits its entry and post-abort events and stops the chain; one that
proceeds emits its entry event, runs the rest of the chain, then emits its
exit event (onion unwinding). -/
def runFrom {α : Type} (aborts : List (α → Bool)) (req : α) (base : Nat) :
    List Event × Bool :=
  match aborts with
  | [] => ([Event.handlerRun], true)
  | a :: rest =>
    if a req then
      ([Event.enter base, Event.abortExit base], false)
    else
      let r := runFrom rest req (base + 1)
      (Event.enter base :: r.1 ++ [Event.exitEv base], r.2)

/-- Run a whole chain from interceptor 0, as the Gin engine does. -/
def runChain {α : Type} (aborts : List (α → Bool)) (req : α) :
    List Event × Bool :=
  runFrom aborts req 0

/-- The exact trace of a chain whose interceptor at offset `k` (from `base`)
is the first to abort. -/
def abortTrace (base : Nat) : Nat → List Event
  | 0 => [Event.enter base, Event.abortExit base]
  | k + 1 => Event.enter base :: abortTrace (base + 1) k ++ [Event.exitEv base]

theorem runFrom_abort {α : Type} (pre : List (α → Bool)) (ab : α → Bool)
    (post : List (α → Bool)) (req : α) (base : Nat)
    (hpre : ∀ f ∈ pre, f req = false) (hab : ab req = true) :
    runFrom (pre ++ ab :: post) req base = (abortTrace base pre.length, false) := by
  induction pre generalizing base with
  | nil => simp [runFrom, hab, abortTrace]
  | cons f pre ih =>
    have hf : f req = false := hpre f (List.mem_cons_self f pre)
    have hrest : ∀ g ∈ pre, g req = false :=
      fun g hg => hpre g (List.mem_cons_of_mem f hg)
    simp [runFrom, hf, ih (base + 1) hrest, abortTrace]

theorem handlerRun_not_mem_abortTrace (k base : Nat) :
    Event.handlerRun ∉ abortTrace base k := by
  induction k generalizing base with
  | zero => simp [abortTrace]
  | succ k ih => simp [abortTrace, ih (base + 1)]

theorem enter_mem_abortTrace (k base m : Nat) :
    Event.enter m ∈ abortTrace base k ↔ base ≤ m ∧ m ≤ base + k := by
  induction k generalizing base with
  | zero => simp [abortTrace]; omega
  | succ k ih => simp [abortTrace, ih (base + 1)]; omega

theorem exitEv_mem_abortTrace (k base m : Nat) :
    Event.exitEv m ∈ abortTrace base k ↔ base ≤ m ∧ m < base + k := by
  induction k generalizing base with
  | zero => simp [abortTrace]
  | succ k ih => simp [abortTrace, ih (base + 1)]; omega

theorem abortExit_mem_abortTrace (k base m : Nat) :
    Event.abortExit m ∈ abortTrace base k ↔ m = base + k := by
  induction k generalizing base with
  | zero => simp [abortTrace]
  | succ k ih => simp [abortTrace, ih (base + 1)]; omega

/-- C2: in any interceptor chain, if the interceptor at position `k`
(`k = pre.length`, the first aborting one) aborts the request, then the
terminal handler never runs, no interceptor after `k` runs at all, while
interceptor `k`'s own post-abort code runs and the post-proceed code of every
interceptor before `k` runs (onion unwinding). -/
theorem chain_abort_shortcircuit {α : Type} (pre : List (α → Bool))
    (ab : α → Bool) (post : List (α → Bool)) (req : α)
    (hpre : ∀ f ∈ pre, f req = false) (hab : ab req = true) :
    Event.handlerRun ∉ (runChain (pre ++ ab :: post) req).1
    ∧ (∀ m, pre.length < m →
        Event.enter m ∉ (runChain (pre ++ ab :: post) req).1
        ∧ Event.exitEv m ∉ (runChain (pre ++ ab :: post) req).1)
    ∧ Event.abortExit pre.length ∈ (runChain (pre ++ ab :: post) req).1
    ∧ (∀ j, j < pre.length →
        Event.exitEv j ∈ (runChain (pre ++ ab :: post) req).1) := by
  have h := runFrom_abort pre ab post req 0 hpre hab
  rw [runChain, h]
  refine ⟨handlerRun_not_mem_abortTrace _ _, ?_, ?_, ?_⟩
  · intro m hm
    constructor
    · rw [enter_mem_abortTrace]; omega
    · rw [exitEv_mem_abortTrace]; omega
  · rw [abortExit_mem_abortTrace]; omega
  · intro j hj
    rw [exitEv_mem_abortTrace]; omega

/-- Request of the middleware-chain example: only its `abort` query string
matters. -/
structure M04Req where
  abortQuery : String
deriving DecidableEq, Repr

/-- `Middleware1` proceeds unconditionally (log, `c.Next()`, log). -/
def middleware1Aborts : M04Req → Bool := fun _ => false

/-- `Middleware2` aborts (with a 400 JSON response) exactly when the request
query `abort` equals "true"; its post-abort log line still runs. -/
def middleware2Aborts : M04Req → Bool := fun r => r.abortQuery == "true"

/-- `Middleware3` proceeds unconditionally. -/
def middleware3Aborts : M04Req → Bool := fun _ => false

/-- Witness for C2: the example's 3-interceptor chain on a request with
`abort=true` — Middleware2 aborts, so the handler and Middleware3 never run,
Middleware2's post-abort code runs, and Middleware1's post-proceed code
runs. -/
theorem chain_abort_shortcircuit_witness :
    (∀ f ∈ [middleware1Aborts], f (M04Req.mk "true") = false)
    ∧ middleware2Aborts (M04Req.mk "true") = true
    ∧ (Event.handlerRun ∉
        (runChain ([middleware1Aborts] ++ middleware2Aborts :: [middleware3Aborts])
          (M04Req.mk "true")).1
      ∧ (∀ m, [middleware1Aborts].length < m →
          Event.enter m ∉
            (runChain ([middleware1Aborts] ++ middleware2Aborts :: [middleware3Aborts])
              (M04Req.mk "true")).1
          ∧ Event.exitEv m ∉
            (runChain ([middleware1Aborts] ++ middleware2Aborts :: [middleware3Aborts])
              (M04Req.mk "true")).1)
      ∧ Event.abortExit [middleware1Aborts].length ∈
          (runChain ([middleware1Aborts] ++ middleware2Aborts :: [middleware3Aborts])
            (M04Req.mk "true")).1
      ∧ (∀ j, j < [middleware1Aborts].length →
          Event.exitEv j ∈
            (runChain ([middleware1Aborts] ++ middleware2Aborts :: [middleware3Aborts])
              (M04Req.mk "true")).1)) :=
  ⟨by intro f hf; simp at hf; subst hf; rfl,
   by rfl,
   chain_abort_shortcircuit [middleware1Aborts] middleware2Aborts
     [middleware3Aborts] (M04Req.mk "true")
     (by intro f hf; simp at hf; subst hf; rfl)
     (by rfl)⟩

end GoWeb

namespace GoWeb

/-! ## Bearer-header authentication middleware (JWTAuthMiddleware / AuthMiddleware)

Both middlewares read the `Authorization` header (Gin's `GetHeader` returns
the empty string when the header is absent), split it with
`strings.SplitN(header, " ", 2)`, abort with 401 unless the result is exactly
`["Bearer", rest]`, and only then hand `rest` to token verification.  Headers
are modelled as `List Char`; the model records which abort branch is taken,
or that `parseToken`/`validateToken` is invoked and on which string. -/

/-- Split a character list at its first space: `some (before, after)` when a
space occurs, `none` otherwise. -/
def splitFirstSpace : List Char → Option (List Char × List Char)
  | [] => none
  | c :: cs =>
    if c = ' ' then some ([], cs)
    else
      match splitFirstSpace cs with
      | none => none
      | some (a, b) => some (c :: a, b)

/-- Model of Go `strings.SplitN(s, " ", 2)`: the whole string when it has no
space, otherwise the part before the first space and everything after it. -/
def goSplitN2 (s : List Char) : List (List Char) :=
  match splitFirstSpace s with
  | none => [s]
  | some (a, b) => [a, b]

/-- Model of Go `strings.Split(s, " ")` (full split, used only to state the
spec's "exactly two space-separated tokens" reading). -/
def splitSpaceAux : List Char → List Char → List (List Char)
  | [], acc => [acc.reverse]
  | c :: cs, acc =>
    if c = ' ' then acc.reverse :: splitSpaceAux cs []
    else splitSpaceAux cs (c :: acc)

def goSplitSpace (s : List Char) : List (List Char) :=
  splitSpaceAux s []

/-- The literal scheme `"Bearer"`. -/
def bearerChars : List Char := ['B', 'e', 'a', 'r', 'e', 'r']

/-- Control-flow outcome of the header-shape stage of the middleware: abort
because the header is absent, abort because the shape check
`len(parts) != 2 || parts[0] != "Bearer"` fails, or proceed to invoke token
verification on the remainder string. -/
inductive AuthStep
  | abortMissing
  | abortFormat
  | callParse (tok : List Char)
deriving DecidableEq, Repr

/-- Header handling of `JWTAuthMiddleware` (gin-auth example,
src/unnamed/part_000): empty header aborts with "缺少认证头"; a split not of
shape `["Bearer", rest]` aborts with "认证头格式错误"; otherwise
`parseToken(rest)` is invoked. -/
def jwtAuthStep (header : List Char) : AuthStep :=
  if header = [] then .abortMissing
  else
    match goSplitN2 header with
    | [p0, p1] => if p0 = bearerChars then .callParse p1 else .abortFormat
    | _ => .abortFormat

/-- Header handling of `AuthMiddleware` (src/unnamed/part_019): the same
shape check (`SplitN " " 2`, first part `"Bearer"`) in front of
`validateToken`. -/
def authMiddlewareStep (header : List Char) : AuthStep :=
  if header = [] then .abortMissing
  else
    match goSplitN2 header with
    | [p0, p1] => if p0 = bearerChars then .callParse p1 else .abortFormat
    | _ => .abortFormat

/-- Well-formedness of the header as the spec words it: the value consists of
exactly two space-separated tokens, the first being `Bearer` and the second
non-empty. -/
def specWellformedHeader (header : List Char) : Bool :=
  match goSplitSpace header with
  | [p0, p1] => p0 = bearerChars && p1 ≠ []
  | _ => false

/-- The header `"Bearer a b"`. -/
def cexHeader : List Char := bearerChars ++ [' ', 'a', ' ', 'b']

/-- C6 counterexample: the header `"Bearer a b"` does not consist of exactly
two space-separated tokens (it has three), yet both middlewares pass the
shape check and invoke token verification on `"a b"` instead of aborting
before it. -/
theorem malformed_header_reaches_parse :
    specWellformedHeader cexHeader = false
    ∧ jwtAuthStep cexHeader = .callParse ['a', ' ', 'b']
    ∧ authMiddlewareStep cexHeader = .callParse ['a', ' ', 'b'] := by
  refine ⟨?_, ?_, ?_⟩ <;> rfl


theorem splitFirstSpace_some : ∀ s a b : List Char,
    splitFirstSpace s = some (a, b) → s = a ++ ' ' :: b ∧ ' ' ∉ a := by
  intro s
  induction s with
  | nil => intro a b h; simp [splitFirstSpace] at h
  | cons c cs ih =>
    intro a b h
    by_cases hc : c = ' '
    · subst hc
      rw [splitFirstSpace, if_pos rfl] at h
      injection h with h
      injection h with h1 h2
      subst h1; subst h2
      simp
    · rw [splitFirstSpace, if_neg hc] at h
      cases hs : splitFirstSpace cs with
      | none => rw [hs] at h; exact absurd h (by simp)
      | some ab =>
        obtain ⟨a0, b0⟩ := ab
        rw [hs] at h
        injection h with h
        injection h with h1 h2
        subst h1; subst h2
        obtain ⟨heq, hnot⟩ := ih a0 b0 hs
        refine ⟨by simp [heq], ?_⟩
        intro hmem
        rcases List.mem_cons.mp hmem with h | h
        · exact hc h.symm
        · exact hnot h

theorem splitFirstSpace_append (a b : List Char) (ha : ' ' ∉ a) :
    splitFirstSpace (a ++ ' ' :: b) = some (a, b) := by
  induction a with
  | nil => simp [splitFirstSpace]
  | cons c cs ih =>
    have hc : ¬c = ' ' := by
      intro h
      exact ha (by rw [h]; exact List.mem_cons_self ' ' cs)
    rw [List.cons_append, splitFirstSpace, if_neg hc,
      ih (fun h => ha (List.mem_cons_of_mem c h))]

/-- C6 amended: each middleware invokes token verification exactly on headers
of the form `"Bearer " ++ rest` (nonempty, first space-separated part
`Bearer`, and `rest` everything after the first space — possibly empty,
possibly itself containing spaces); every other header (absent, no space, or
wrong scheme) is aborted by the shape check before token verification.  In
particular a header whose portion after `Bearer ` contains spaces reaches
token verification rather than being rejected by the shape check. -/
theorem authStep_callParse_iff (header t : List Char) :
    (jwtAuthStep header = .callParse t ↔ header = bearerChars ++ ' ' :: t)
    ∧ (authMiddlewareStep header = .callParse t ↔ header = bearerChars ++ ' ' :: t) := by
  have main : jwtAuthStep header = .callParse t ↔ header = bearerChars ++ ' ' :: t := by
    constructor
    · intro h
      by_cases hnil : header = []
      · rw [jwtAuthStep, if_pos hnil] at h
        exact absurd h (by simp)
      · rw [jwtAuthStep, if_neg hnil] at h
        cases hs : splitFirstSpace header with
        | none =>
          rw [goSplitN2, hs] at h
          exact absurd h (by simp)
        | some ab =>
          obtain ⟨a, b⟩ := ab
          rw [goSplitN2, hs] at h
          dsimp only at h
          by_cases hb : a = bearerChars
          · rw [if_pos hb] at h
            injection h with h
            subst h
            subst hb
            exact (splitFirstSpace_some _ _ _ hs).1
          · rw [if_neg hb] at h
            exact absurd h (by simp)
    · intro h
      subst h
      have hs := splitFirstSpace_append bearerChars t (by decide)
      rw [jwtAuthStep, if_neg (by simp [bearerChars]), goSplitN2, hs]
      dsimp only
      rw [if_pos rfl]
  exact ⟨main, main⟩

end GoWeb

namespace GoWeb

/-! ## AuthorizationGate: RequireRole (src/unnamed/part_001) and
RoleMiddleware (src/unnamed/part_000) -/

/-- Outcome of a role/permission gate middleware: continue the chain
(`c.Next()`) or abort with 403 Forbidden. -/
inductive GateOutcome
  | proceedNext
  | abortForbidden
deriving DecidableEq, Repr

/-- The nested-loop membership test of `RequireRole`: some required role
equals some of the caller's context roles. -/
def requireRoleGrants (required userRoles : List String) : Bool :=
  required.any (fun req => userRoles.any (fun ur => ur == req))

/-- `RequireRole(roles...)` middleware body: on a roles match it calls
`c.Next()` and returns; otherwise it responds 403 "角色权限不足" and
aborts.  `userRoles` is `c.GetStringSlice("roles")` (empty when unset). -/
def RequireRole (required userRoles : List String) : GateOutcome :=
  if requireRoleGrants required userRoles then .proceedNext else .abortForbidden

/-- `RoleMiddleware(requiredRole)` of the gin-auth example: reads `role` from
the context (`none` when unset) and aborts with 403 "权限不足" unless it
exists and equals the required role. -/
def RoleMiddleware (requiredRole : String) (ctxRole : Option String) : GateOutcome :=
  match ctxRole with
  | some r => if r == requiredRole then .proceedNext else .abortForbidden
  | none => .abortForbidden

theorem requireRoleGrants_iff (required userRoles : List String) :
    requireRoleGrants required userRoles = true ↔
      ∃ r, r ∈ userRoles ∧ r ∈ required := by
  simp only [requireRoleGrants, List.any_eq_true, beq_iff_eq]
  constructor
  · rintro ⟨req, hreq, ur, hur, he⟩
    exact ⟨ur, hur, he ▸ hreq⟩
  · rintro ⟨r, hur, hreq⟩
    exact ⟨r, hreq, r, hur, rfl⟩

/-- C7: the role gate grants access (proceeds) iff at least one of the
caller's roles is a member of the allowed set — any-of, not all-of — and
otherwise aborts with Forbidden, in which case the terminal handler never
runs in a chain guarded by it. -/
theorem requireRole_anyOf (required userRoles : List String) :
    (RequireRole required userRoles = .proceedNext ↔
      ∃ r, r ∈ userRoles ∧ r ∈ required)
    ∧ (RequireRole required userRoles = .abortForbidden ↔
      ¬∃ r, r ∈ userRoles ∧ r ∈ required)
    ∧ (RequireRole required userRoles = .abortForbidden →
        Event.handlerRun ∉
          (runChain [fun (_ : Unit) =>
            RequireRole required userRoles == .abortForbidden] ()).1) := by
  refine ⟨?_, ?_, ?_⟩
  · rw [← requireRoleGrants_iff]
    unfold RequireRole
    cases h : requireRoleGrants required userRoles <;> simp [h]
  · rw [← requireRoleGrants_iff]
    unfold RequireRole
    cases h : requireRoleGrants required userRoles <;> simp [h]
  · intro h
    rw [runChain, runFrom]
    simp [h]

/-- Witness for C7 at a concrete non-matching role set: allowed `["admin"]`,
caller roles `["user"]`. -/
theorem requireRole_anyOf_witness :
    RequireRole ["admin"] ["user"] = .abortForbidden
    ∧ Event.handlerRun ∉
        (runChain [fun (_ : Unit) =>
          RequireRole ["admin"] ["user"] == .abortForbidden] ()).1 :=
  ⟨by decide, (requireRole_anyOf ["admin"] ["user"]).2.2 (by decide)⟩

end GoWeb

namespace GoWeb

/-! ## The register/login example (src/16-密码安全-bcrypt/examples/03-register-login)

The user table and the failed-login counter table are Go maps guarded by
mutexes; a single request's handler run is modelled as a pure function of the
two tables.  Reads of a missing counter key yield 0 and `delete` resets to
that zero value, so the counter table is a total function `String → Nat`.
The external `bcrypt.CompareHashAndPassword` (wrapped by `CheckPassword`) is
an arbitrary boolean matcher parameter `check`. -/

/-- The `User` model of the register/login example (password hash stored
opaquely). -/
structure User where
  id : Nat
  username : String
  passwordHash : String
  email : String
deriving DecidableEq, Repr

/-- A bound login request (after JSON binding). -/
structure LoginReq where
  username : String
  password : String
deriving DecidableEq, Repr

/-- A handler response: an error status/message pair, or the success payload
built from the user record. -/
inductive LoginResp
  | err (status : Nat) (msg : String)
  | ok (id : Nat) (username email : String)
deriving DecidableEq, Repr

/-- `maxLoginAttempts = 5`. -/
def maxLoginAttempts : Nat := 5

/-- `isLocked`: the recorded failure count has reached the threshold
(`loginAttempts[username] >= maxLoginAttempts`). -/
def isLocked (attempts : String → Nat) (username : String) : Bool :=
  decide (maxLoginAttempts ≤ attempts username)

/-- `recordFailedLogin`: increment the per-identity counter (creating it at
its zero value if absent). -/
def recordFailedLogin (attempts : String → Nat) (username : String) :
    String → Nat :=
  fun u => if u = username then attempts username + 1 else attempts u

/-- `clearFailedLogins`: delete the identity's record, so later reads give
0. -/
def clearFailedLogins (attempts : String → Nat) (username : String) :
    String → Nat :=
  fun u => if u = username then 0 else attempts u

/-- `loginHandler` on a bound request: lockout check first, then user lookup,
then password verification; failures record a failed attempt and return the
uniform 401 message, success clears the counter.  Returns the response and
the updated counter table. -/
def loginHandler (check : String → String → Bool)
    (users : String → Option User) (attempts : String → Nat)
    (req : LoginReq) : LoginResp × (String → Nat) :=
  if isLocked attempts req.username then
    (.err 429 "登录尝试次数过多，请稍后再试", attempts)
  else
    match users req.username with
    | none =>
      (.err 401 "用户名或密码错误", recordFailedLogin attempts req.username)
    | some user =>
      if check req.password user.passwordHash then
        (.ok user.id user.username user.email, clearFailedLogins attempts req.username)
      else
        (.err 401 "用户名或密码错误", recordFailedLogin attempts req.username)

/-- The request fails the credential exchange: the identity is unknown, or it
is known and the password does not match its stored hash. -/
def failsCredentials (check : String → String → Bool)
    (users : String → Option User) (req : LoginReq) : Prop :=
  users req.username = none
  ∨ ∃ u, users req.username = some u ∧ check req.password u.passwordHash = false

theorem loginHandler_locked (check : String → String → Bool)
    (users : String → Option User) (attempts : String → Nat) (req : LoginReq)
    (h : maxLoginAttempts ≤ attempts req.username) :
    loginHandler check users attempts req =
      (.err 429 "登录尝试次数过多，请稍后再试", attempts) := by
  rw [loginHandler, if_pos (by rw [isLocked]; exact decide_eq_true h)]

theorem loginHandler_failed (check : String → String → Bool)
    (users : String → Option User) (attempts : String → Nat) (req : LoginReq)
    (hunlocked : attempts req.username < maxLoginAttempts)
    (hfail : failsCredentials check users req) :
    loginHandler check users attempts req =
      (.err 401 "用户名或密码错误", recordFailedLogin attempts req.username) := by
  rw [loginHandler, if_neg (by rw [isLocked]; simp; omega)]
  rcases hfail with hnone | ⟨u, hu, hc⟩
  · rw [hnone]
  · rw [hu]
    simp [hc]

/-- C3: once an identity's recorded failure count has reached the threshold
(5), `isLocked` reports true and a login attempt for that identity is
rejected with the lockout response whatever the user table and whatever the
password matcher — in particular even when the password is correct — the
lockout check being evaluated before any credential verification. -/
theorem locked_login_rejected (check : String → String → Bool)
    (users : String → Option User) (attempts : String → Nat)
    (username password : String)
    (h : maxLoginAttempts ≤ attempts username) :
    isLocked attempts username = true
    ∧ (loginHandler check users attempts ⟨username, password⟩).1 =
        .err 429 "登录尝试次数过多，请稍后再试" := by
  refine ⟨by rw [isLocked]; exact decide_eq_true h, ?_⟩
  rw [loginHandler_locked check users attempts ⟨username, password⟩ h]

/-- Witness for C3: identity "tom" with exactly 5 recorded failures, a user
table that knows "tom", and a matcher accepting every password (the supplied
password is correct), still gets the lockout response. -/
theorem locked_login_rejected_witness :
    maxLoginAttempts ≤ (fun _ : String => 5) "tom"
    ∧ (isLocked (fun _ => 5) "tom" = true
      ∧ (loginHandler (fun _ _ => true)
          (fun u => some ⟨1, u, "hash", "tom@example.com"⟩)
          (fun _ => 5) ⟨"tom", "Test@123456"⟩).1 =
          .err 429 "登录尝试次数过多，请稍后再试") :=
  ⟨by decide,
   locked_login_rejected (fun _ _ => true)
     (fun u => some ⟨1, u, "hash", "tom@example.com"⟩)
     (fun _ => 5) "tom" "Test@123456" (by decide)⟩

/-- C5 counterexample: a locked-out attempt answers 429
"登录尝试次数过多，请稍后再试" while a wrong-password attempt answers 401
"用户名或密码错误" — the two responses differ, so a caller can tell lockout
from wrong credentials. -/
theorem lockout_response_distinguishable :
    (loginHandler (fun _ _ => true)
        (fun u => some ⟨1, u, "hash", "e"⟩) (fun _ => 5) ⟨"tom", "pw"⟩).1 =
      .err 429 "登录尝试次数过多，请稍后再试"
    ∧ (loginHandler (fun _ _ => false)
        (fun u => some ⟨1, u, "hash", "e"⟩) (fun _ => 0) ⟨"tom", "pw"⟩).1 =
      .err 401 "用户名或密码错误"
    ∧ (loginHandler (fun _ _ => true)
        (fun u => some ⟨1, u, "hash", "e"⟩) (fun _ => 5) ⟨"tom", "pw"⟩).1 ≠
      (loginHandler (fun _ _ => false)
        (fun u => some ⟨1, u, "hash", "e"⟩) (fun _ => 0) ⟨"tom", "pw"⟩).1 := by
  refine ⟨rfl, rfl, by decide⟩

/-- C5 amended: the lockout response is NOT indistinguishable from the
invalid-credentials response — every locked-out run answers the constant
429 lockout message, every failed-credential (unlocked) run answers the
constant 401 uniform message, and the two differ in both status and
message.  Indistinguishability holds only among the failed-credential
cases themselves. -/
theorem lockout_vs_invalid_responses (check₁ : String → String → Bool)
    (users₁ : String → Option User) (attempts₁ : String → Nat) (req₁ : LoginReq)
    (check₂ : String → String → Bool)
    (users₂ : String → Option User) (attempts₂ : String → Nat) (req₂ : LoginReq)
    (h1 : maxLoginAttempts ≤ attempts₁ req₁.username)
    (h2 : attempts₂ req₂.username < maxLoginAttempts)
    (hf2 : failsCredentials check₂ users₂ req₂) :
    (loginHandler check₁ users₁ attempts₁ req₁).1 =
      .err 429 "登录尝试次数过多，请稍后再试"
    ∧ (loginHandler check₂ users₂ attempts₂ req₂).1 =
      .err 401 "用户名或密码错误"
    ∧ (loginHandler check₁ users₁ attempts₁ req₁).1 ≠
      (loginHandler check₂ users₂ attempts₂ req₂).1 := by
  have e1 := loginHandler_locked check₁ users₁ attempts₁ req₁ h1
  have e2 := loginHandler_failed check₂ users₂ attempts₂ req₂ h2 hf2
  rw [e1, e2]
  refine ⟨rfl, rfl, by simp⟩

/-- Witness for the C5 amended theorem at concrete runs. -/
theorem lockout_vs_invalid_responses_witness :
    maxLoginAttempts ≤ (fun _ : String => 5) "tom"
    ∧ (fun _ : String => 0) "bob" < maxLoginAttempts
    ∧ failsCredentials (fun _ _ => false) (fun _ => none) ⟨"bob", "pw"⟩
    ∧ ((loginHandler (fun _ _ => true) (fun _ => none) (fun _ => 5) ⟨"tom", "pw"⟩).1 =
        .err 429 "登录尝试次数过多，请稍后再试"
      ∧ (loginHandler (fun _ _ => false) (fun _ => none) (fun _ => 0) ⟨"bob", "pw"⟩).1 =
        .err 401 "用户名或密码错误"
      ∧ (loginHandler (fun _ _ => true) (fun _ => none) (fun _ => 5) ⟨"tom", "pw"⟩).1 ≠
        (loginHandler (fun _ _ => false) (fun _ => none) (fun _ => 0) ⟨"bob", "pw"⟩).1) :=
  ⟨by decide, by decide, Or.inl rfl,
   lockout_vs_invalid_responses (fun _ _ => true) (fun _ => none) (fun _ => 5)
     ⟨"tom", "pw"⟩ (fun _ _ => false) (fun _ => none) (fun _ => 0) ⟨"bob", "pw"⟩
     (by decide) (by decide) (Or.inl rfl)⟩

/-- C8: two-run uniformity of failed credential exchanges — whenever two
(unlocked) login attempts both fail their credential check, one because the
identity does not exist and/or one because the password is wrong, the
responses are identical, revealing nothing about which part was wrong. -/
theorem failed_login_uniform (check₁ : String → String → Bool)
    (users₁ : String → Option User) (attempts₁ : String → Nat) (req₁ : LoginReq)
    (check₂ : String → String → Bool)
    (users₂ : String → Option User) (attempts₂ : String → Nat) (req₂ : LoginReq)
    (h1 : attempts₁ req₁.username < maxLoginAttempts)
    (hf1 : failsCredentials check₁ users₁ req₁)
    (h2 : attempts₂ req₂.username < maxLoginAttempts)
    (hf2 : failsCredentials check₂ users₂ req₂) :
    (loginHandler check₁ users₁ attempts₁ req₁).1 =
      (loginHandler check₂ users₂ attempts₂ req₂).1 := by
  rw [loginHandler_failed check₁ users₁ attempts₁ req₁ h1 hf1,
    loginHandler_failed check₂ users₂ attempts₂ req₂ h2 hf2]

/-- Witness for C8: a request for a nonexistent identity and a request with a
wrong password for an existing identity receive the same response. -/
theorem failed_login_uniform_witness :
    (fun _ : String => 0) "ghost" < maxLoginAttempts
    ∧ failsCredentials (fun _ _ => true) (fun _ => none) ⟨"ghost", "pw"⟩
    ∧ (fun _ : String => 0) "tom" < maxLoginAttempts
    ∧ failsCredentials (fun _ _ => false)
        (fun u => some ⟨1, u, "hash", "e"⟩) ⟨"tom", "pw"⟩
    ∧ (loginHandler (fun _ _ => true) (fun _ => none) (fun _ => 0) ⟨"ghost", "pw"⟩).1 =
        (loginHandler (fun _ _ => false)
          (fun u => some ⟨1, u, "hash", "e"⟩) (fun _ => 0) ⟨"tom", "pw"⟩).1 :=
  ⟨by decide, Or.inl rfl, by decide, Or.inr ⟨⟨1, "tom", "hash", "e"⟩, rfl, rfl⟩,
   failed_login_uniform (fun _ _ => true) (fun _ => none) (fun _ => 0)
     ⟨"ghost", "pw"⟩ (fun _ _ => false) (fun u => some ⟨1, u, "hash", "e"⟩)
     (fun _ => 0) ⟨"tom", "pw"⟩
     (by decide) (Or.inl rfl) (by decide) (Or.inr ⟨⟨1, "tom", "hash", "e"⟩, rfl, rfl⟩)⟩

/-- `n` successive runs of the login handler on the same request, threading
the counter table. -/
def loginN (check : String → String → Bool) (users : String → Option User)
    (req : LoginReq) : Nat → (String → Nat) → (String → Nat)
  | 0, attempts => attempts
  | n + 1, attempts =>
    (loginHandler check users (loginN check users req n attempts) req).2

theorem loginN_count (check : String → String → Bool)
    (users : String → Option User) (req : LoginReq)
    (h : users req.username = none) :
    ∀ n, n ≤ maxLoginAttempts →
      loginN check users req n (fun _ => 0) req.username = n := by
  intro n
  induction n with
  | zero => intro _; rfl
  | succ n ih =>
    intro hn
    have hcount := ih (Nat.le_of_succ_le hn)
    rw [loginN,
      loginHandler_failed check users _ req (by omega) (Or.inl h)]
    simp [recordFailedLogin, hcount]

/-- C9: failed attempts for never-registered identities are counted in the
same per-identity table — each failed attempt for an unknown username (below
the threshold) increments its counter, and after 5 such failures from a fresh
table the next attempt gets the lockout response, not the
invalid-credentials response. -/
theorem unknown_identity_lockout (check : String → String → Bool)
    (users : String → Option User) (req : LoginReq)
    (h : users req.username = none) :
    (∀ attempts : String → Nat, attempts req.username < maxLoginAttempts →
      (loginHandler check users attempts req).2 req.username =
        attempts req.username + 1)
    ∧ loginN check users req maxLoginAttempts (fun _ => 0) req.username =
        maxLoginAttempts
    ∧ (loginHandler check users
        (loginN check users req maxLoginAttempts (fun _ => 0)) req).1 =
        .err 429 "登录尝试次数过多，请稍后再试"
    ∧ (loginHandler check users
        (loginN check users req maxLoginAttempts (fun _ => 0)) req).1 ≠
        .err 401 "用户名或密码错误" := by
  have hfive := loginN_count check users req h maxLoginAttempts (Nat.le_refl _)
  refine ⟨?_, hfive, ?_, ?_⟩
  · intro attempts hb
    rw [loginHandler_failed check users attempts req hb (Or.inl h)]
    simp [recordFailedLogin]
  · rw [loginHandler_locked check users _ req (by omega)]
  · rw [loginHandler_locked check users _ req (by omega)]
    simp

/-- Witness for C9: a username "ghost" that was never registered. -/
theorem unknown_identity_lockout_witness :
    (fun _ : String => (none : Option User)) "ghost" = none
    ∧ loginN (fun _ _ => false) (fun _ => none) ⟨"ghost", "pw"⟩
        maxLoginAttempts (fun _ => 0) "ghost" = maxLoginAttempts
    ∧ (loginHandler (fun _ _ => false) (fun _ => none)
        (loginN (fun _ _ => false) (fun _ => none) ⟨"ghost", "pw"⟩
          maxLoginAttempts (fun _ => 0)) ⟨"ghost", "pw"⟩).1 =
        .err 429 "登录尝试次数过多，请稍后再试" :=
  ⟨rfl,
   (unknown_identity_lockout (fun _ _ => false) (fun _ => none)
     ⟨"ghost", "pw"⟩ rfl).2.1,
   (unknown_identity_lockout (fun _ _ => false) (fun _ => none)
     ⟨"ghost", "pw"⟩ rfl).2.2.1⟩

end GoWeb

namespace GoWeb

/-! ## CredentialHasher cost handling (src/16-密码安全-bcrypt examples 01/02)

`HashPasswordWithCost` and `NewBcryptMatcher` clamp an out-of-range work
factor to the library default before ever calling
`bcrypt.GenerateFromPassword`.  The library function itself is modelled in
the shape the wrappers exercise: passwords longer than 72 bytes are an
error, a cost below `MinCost` is replaced by `DefaultCost`, a cost above
`MaxCost` is an `InvalidCostError`; the produced hash is symbolic, carrying
the password and the cost actually used. -/

/-- `bcrypt.MinCost`. -/
def bcryptMinCost : Int := 4

/-- `bcrypt.MaxCost`. -/
def bcryptMaxCost : Int := 31

/-- `bcrypt.DefaultCost`. -/
def bcryptDefaultCost : Int := 10

/-- Symbolic bcrypt digest: records the hashed password and the work factor
that produced it (salt omitted — no property here depends on it). -/
structure BcryptHash where
  pw : String
  cost : Int
deriving DecidableEq, Repr

/-- Model of the external `bcrypt.GenerateFromPassword`. -/
def generateFromPassword (password : String) (cost : Int) :
    Except String BcryptHash :=
  if password.utf8ByteSize > 72 then
    .error "bcrypt: password length exceeds 72 bytes"
  else
    let c := if cost < bcryptMinCost then bcryptDefaultCost else cost
    if c > bcryptMaxCost then .error "crypto/bcrypt: cost out of range"
    else .ok ⟨password, c⟩

/-- `HashPasswordWithCost` (hash-password example): an out-of-range cost is
silently replaced by the default before hashing. -/
def HashPasswordWithCost (password : String) (cost : Int) :
    Except String BcryptHash :=
  let c := if cost < bcryptMinCost ∨ cost > bcryptMaxCost
    then bcryptDefaultCost else cost
  generateFromPassword password c

/-- `BcryptMatcher` (verify-password example): the configured cost. -/
structure BcryptMatcher where
  cost : Int
deriving DecidableEq, Repr

/-- `NewBcryptMatcher`: constructor clamping an out-of-range cost to the
default. -/
def NewBcryptMatcher (cost : Int) : BcryptMatcher :=
  ⟨if cost < bcryptMinCost ∨ cost > bcryptMaxCost
    then bcryptDefaultCost else cost⟩

/-- `(*BcryptMatcher).Hash`. -/
def BcryptMatcher.hashPw (m : BcryptMatcher) (password : String) :
    Except String BcryptHash :=
  generateFromPassword password m.cost

/-- C10: for every work factor outside `[MinCost, MaxCost] = [4, 31]`, both
cost-parameterised entry points silently substitute the default cost 10 and
hashing proceeds (no error), for any password within bcrypt's 72-byte
limit. -/
theorem out_of_range_cost_defaults (cost : Int) (password : String)
    (hrange : cost < bcryptMinCost ∨ bcryptMaxCost < cost)
    (hlen : password.utf8ByteSize ≤ 72) :
    HashPasswordWithCost password cost = .ok ⟨password, bcryptDefaultCost⟩
    ∧ (NewBcryptMatcher cost).cost = bcryptDefaultCost
    ∧ (NewBcryptMatcher cost).hashPw password = .ok ⟨password, bcryptDefaultCost⟩ := by
  have hcond : cost < bcryptMinCost ∨ cost > bcryptMaxCost := hrange
  have hgen : generateFromPassword password bcryptDefaultCost =
      .ok ⟨password, bcryptDefaultCost⟩ := by
    rw [generateFromPassword, if_neg (by omega)]
    norm_num [bcryptMinCost, bcryptMaxCost, bcryptDefaultCost]
  refine ⟨?_, ?_, ?_⟩
  · rw [HashPasswordWithCost]
    simp only [if_pos hcond]
    exact hgen
  · rw [NewBcryptMatcher, if_pos hcond]
  · rw [BcryptMatcher.hashPw, NewBcryptMatcher]
    simp only [if_pos hcond]
    exact hgen

/-- Witness for C10 at cost 99 (above `MaxCost`) and a short password. -/
theorem out_of_range_cost_defaults_witness :
    ((99 : Int) < bcryptMinCost ∨ bcryptMaxCost < (99 : Int))
    ∧ "MySecurePassword123!".utf8ByteSize ≤ 72
    ∧ (HashPasswordWithCost "MySecurePassword123!" 99 =
        .ok ⟨"MySecurePassword123!", bcryptDefaultCost⟩
      ∧ (NewBcryptMatcher 99).cost = bcryptDefaultCost
      ∧ (NewBcryptMatcher 99).hashPw "MySecurePassword123!" =
        .ok ⟨"MySecurePassword123!", bcryptDefaultCost⟩) :=
  ⟨by decide, by decide,
   out_of_range_cost_defaults 99 "MySecurePassword123!" (by decide) (by decide)⟩

end GoWeb
